import Mathlib

/-!
Verification development for usbguard's `DevicePrivate` core
(`src/Library/DevicePrivate.cpp`): the Device Identity Record, the
descriptor-ingestion handlers, the identity hasher (`getDeviceHash`) and the
rule materializer (`getDeviceRule`).

Strings are modelled as byte sequences (`List Nat`), matching `std::string`.
Exceptions become `Except`/explicit error fields carrying the error kind the
spec's taxonomy assigns to each throw site.  The external collaborators that
are not part of `src/` — the `Rule` value type, the `USBDescriptorParser`
oracle, the USB string-length constants — are modelled from the spec and
documented as such at their definitions.  libsodium's `crypto_generichash`
is an external library function; it is modelled as a concrete deterministic
digest function of the streamed input bytes with the requested output length
(only determinism, which bytes are streamed, and the output length matter to
any statement below; `crypto_generichash_BYTES_MIN` is libsodium's documented
constant 16).
-/

namespace Usbguard

/-- A `std::string` as a byte sequence. -/
abbrev ByteString := List Nat

/-- The `Rule::Target` disposition enum (spec §3: {Unknown, Allow, Block, Reject}). -/
inductive Target where
  | Unknown
  | Allow
  | Block
  | Reject
deriving DecidableEq, Repr

/-- Modelled from the spec: set-matching operator carried by a rule's set
attributes; `Equals` is the exact-match semantics the materializer stamps,
`Match` the default of a freshly constructed rule (the `Rule` class is not
under `src/`). -/
inductive SetOperator where
  | Match
  | Equals
deriving DecidableEq, Repr

/-- The four USB descriptor levels handled by this core
(`USB_DESCRIPTOR_TYPE_*`). -/
inductive DescriptorType where
  | device
  | configuration
  | interface
  | endpoint
deriving DecidableEq, Repr

/-- Modelled from the spec: an interface-type record (class/subclass/protocol)
as accumulated in `interfaceTypes` (`USBInterfaceType` lives in `USB.hpp`,
not under `src/`). -/
structure USBInterfaceType where
  bClass : Nat
  bSubClass : Nat
  bProtocol : Nat
deriving DecidableEq, Repr

/-- Modelled from the spec: the typed device-level descriptor record; this
core reads only its configuration count (`bNumConfigurations`). -/
structure USBDeviceDescriptor where
  bNumConfigurations : Nat
deriving DecidableEq, Repr

/-- Modelled from the spec: the typed interface-level descriptor record with
the raw fields an interface-type record is derived from. -/
structure USBInterfaceDescriptor where
  bInterfaceClass : Nat
  bInterfaceSubClass : Nat
  bInterfaceProtocol : Nat
deriving DecidableEq, Repr

/-- Modelled from the spec: derivation of an interface-type record from the
raw interface descriptor fields (the `USBInterfaceType(const
USBInterfaceDescriptor&)` constructor is not under `src/`). -/
def USBInterfaceType.fromDescriptor (d : USBInterfaceDescriptor) : USBInterfaceType :=
  ⟨d.bInterfaceClass, d.bInterfaceSubClass, d.bInterfaceProtocol⟩

/-- Modelled from the spec: `USB_GENERIC_STRING_MAX_LENGTH`, the bound for
`name` and `serialNumber` (constant defined in `USB.hpp`, not under `src/`;
the spec fixes only that it is the generic-string bound). -/
def USB_GENERIC_STRING_MAX_LENGTH : Nat := 126

/-- Modelled from the spec: `USB_VID_STRING_MAX_LENGTH`, the (shorter)
vendor-id bound. -/
def USB_VID_STRING_MAX_LENGTH : Nat := 4

/-- Modelled from the spec: `USB_PID_STRING_MAX_LENGTH`, the (shorter)
product-id bound. -/
def USB_PID_STRING_MAX_LENGTH : Nat := 4

/-- Modelled from the spec: `USB_PORT_STRING_MAX_LENGTH`, the distinct bound
for the port string. -/
def USB_PORT_STRING_MAX_LENGTH : Nat := 32

/-- Error kinds of the spec's taxonomy (§7), one per `throw` site of
`DevicePrivate.cpp`. -/
inductive DeviceError where
  | ValidationError
  | DuplicateDescriptorError
  | MissingParentError
  | IdentityIncompleteError
deriving DecidableEq, Repr

/-- Modelled from the spec: `Rule::DefaultID`, the sentinel id of an
unassigned record (`Rule` is not under `src/`; the spec fixes only that a
default sentinel exists). -/
def RuleDefaultID : Nat := 4294967295

/-- Modelled from the spec: the external declarative `Rule` value consumed by
the policy engine (§6): id, target, the bounded string attributes, a device
port set with its set operator, an interface-type set with its set operator,
the device hash and a configuration count (`Rule` is not under `src/`). -/
structure Rule where
  id : Nat
  target : Target
  name : ByteString
  vendor_id : ByteString
  product_id : ByteString
  serial_number : ByteString
  device_ports : List ByteString
  device_ports_set_operator : SetOperator
  interface_types : List USBInterfaceType
  interface_types_set_operator : SetOperator
  device_hash : List Char
  device_configurations : Int
deriving DecidableEq, Repr

/-- Modelled from the spec: a freshly constructed rule (`makePointer<Rule>()`):
unassigned id, `Unknown` target, empty attributes, no port constraint. -/
def Rule.mkDefault : Rule :=
  { id := RuleDefaultID
    target := Target.Unknown
    name := []
    vendor_id := []
    product_id := []
    serial_number := []
    device_ports := []
    device_ports_set_operator := SetOperator.Match
    interface_types := []
    interface_types_set_operator := SetOperator.Match
    device_hash := []
    device_configurations := -1 }

/-- The Device Identity Record: the private state of `DevicePrivate`
(`_id`, `_target`, `_name`, `_vendor_id`, `_product_id`, `_serial_number`,
`_port`, `_interface_types`, `_num_configurations`).  The back-reference to
the owning `Device` wrapper carries no behavior and is dropped. -/
structure DevicePrivate where
  id : Nat
  target : Target
  name : ByteString
  vendor_id : ByteString
  product_id : ByteString
  serial_number : ByteString
  port : ByteString
  interface_types : List USBInterfaceType
  num_configurations : Int
deriving DecidableEq, Repr

/-- Source `DevicePrivate::DevicePrivate(Device&)`: default construction sets the
sentinel id, `Unknown` target and `-1` configurations; the string fields and
the interface list are default-constructed empty. -/
def DevicePrivate.mkDefault : DevicePrivate :=
  { id := RuleDefaultID
    target := Target.Unknown
    name := []
    vendor_id := []
    product_id := []
    serial_number := []
    port := []
    interface_types := []
    num_configurations := -1 }

/-- Source `DevicePrivate::operator=`: copies every field of `rhs` verbatim. -/
def DevicePrivate.assign (_lhs rhs : DevicePrivate) : DevicePrivate :=
  { id := rhs.id
    target := rhs.target
    name := rhs.name
    vendor_id := rhs.vendor_id
    product_id := rhs.product_id
    serial_number := rhs.serial_number
    port := rhs.port
    interface_types := rhs.interface_types
    num_configurations := rhs.num_configurations }

/-- Source `DevicePrivate::DevicePrivate(Device&, const Rule&)`: populates every
field from the rule; the read of `getDevicePorts()[0]` is rendered as a
guarded `Option`-returning index (C++ `operator[]` out of bounds is
undefined), so construction yields `none` exactly when the rule's port list
is empty. -/
def DevicePrivate.fromRule (device_rule : Rule) : Option DevicePrivate :=
  match device_rule.device_ports.head? with
  | none => none
  | some p =>
    some { id := device_rule.id
           target := device_rule.target
           name := device_rule.name
           vendor_id := device_rule.vendor_id
           product_id := device_rule.product_id
           serial_number := device_rule.serial_number
           port := p
           interface_types := device_rule.interface_types
           num_configurations := device_rule.device_configurations }

/-- Source `DevicePrivate::setID` (unchecked). -/
def DevicePrivate.setID (d : DevicePrivate) (id : Nat) : DevicePrivate :=
  { d with id := id }

/-- Source `DevicePrivate::setTarget` (unchecked). -/
def DevicePrivate.setTarget (d : DevicePrivate) (target : Target) : DevicePrivate :=
  { d with target := target }

/-- Source `DevicePrivate::setDeviceName`: rejects values longer than
`USB_GENERIC_STRING_MAX_LENGTH`, stores otherwise. -/
def DevicePrivate.setDeviceName (d : DevicePrivate) (name : ByteString) :
    Except DeviceError DevicePrivate :=
  if name.length > USB_GENERIC_STRING_MAX_LENGTH then
    Except.error DeviceError.ValidationError
  else
    Except.ok { d with name := name }

/-- Source `DevicePrivate::setVendorID`: rejects values longer than
`USB_VID_STRING_MAX_LENGTH`, stores otherwise. -/
def DevicePrivate.setVendorID (d : DevicePrivate) (vendor_id : ByteString) :
    Except DeviceError DevicePrivate :=
  if vendor_id.length > USB_VID_STRING_MAX_LENGTH then
    Except.error DeviceError.ValidationError
  else
    Except.ok { d with vendor_id := vendor_id }

/-- Source `DevicePrivate::setProductID`: rejects values longer than
`USB_PID_STRING_MAX_LENGTH`, stores otherwise. -/
def DevicePrivate.setProductID (d : DevicePrivate) (product_id : ByteString) :
    Except DeviceError DevicePrivate :=
  if product_id.length > USB_PID_STRING_MAX_LENGTH then
    Except.error DeviceError.ValidationError
  else
    Except.ok { d with product_id := product_id }

/-- Source `DevicePrivate::setDevicePort`: rejects values longer than
`USB_PORT_STRING_MAX_LENGTH`, stores otherwise. -/
def DevicePrivate.setDevicePort (d : DevicePrivate) (port : ByteString) :
    Except DeviceError DevicePrivate :=
  if port.length > USB_PORT_STRING_MAX_LENGTH then
    Except.error DeviceError.ValidationError
  else
    Except.ok { d with port := port }

/-- Source `DevicePrivate::setSerialNumber`: rejects values longer than
`USB_GENERIC_STRING_MAX_LENGTH`, stores otherwise. -/
def DevicePrivate.setSerialNumber (d : DevicePrivate) (serial_number : ByteString) :
    Except DeviceError DevicePrivate :=
  if serial_number.length > USB_GENERIC_STRING_MAX_LENGTH then
    Except.error DeviceError.ValidationError
  else
    Except.ok { d with serial_number := serial_number }

/-- libsodium's `crypto_generichash_BYTES_MIN`: the minimum supported digest
length of `crypto_generichash` (BLAKE2b), 16 bytes.  `getDeviceHash`
allocates its digest buffer with exactly this size. -/
def crypto_generichash_BYTES_MIN : Nat := 16

/-- Model of libsodium's `crypto_generichash` streaming digest restricted to
its use here: a deterministic digest of `outlen` bytes over the streamed
input bytes (streaming updates concatenate, so the input is one byte list).
The BLAKE2b compression function is external library code; only determinism,
dependence on exactly the streamed bytes, and the output length are relied
upon, so it is modelled as a concrete deterministic byte-mixing function with
those properties. -/
def crypto_generichash (outlen : Nat) (input : List Nat) : List Nat :=
  (List.range outlen).map
    (fun i => (input.foldl (fun a b => a * 31 + b + 1) (i + outlen)) % 256)

/-- Digit table of `sodium_bin2hex`: lowercase hexadecimal. -/
def hexDigit (n : Nat) : Char :=
  if n < 10 then Char.ofNat (48 + n) else Char.ofNat (87 + n)

/-- Model of `sodium_bin2hex`: binary-to-lowercase-hex conversion, two digits per
byte, most significant nibble first. -/
def bin2hex (bytes : List Nat) : List Char :=
  bytes.flatMap (fun b => [hexDigit (b / 16 % 16), hexDigit (b % 16)])

/-- Source `DevicePrivate::getDeviceHash`: fails when `_vendor_id` or `_product_id`
is empty; otherwise streams `_name`, `_vendor_id`, `_product_id`,
`_serial_number` (in that order, no delimiter) through `crypto_generichash`
with a `crypto_generichash_BYTES_MIN`-byte digest and returns its lowercase
hex encoding.  The `include_port` parameter is accepted but never consulted. -/
def DevicePrivate.getDeviceHash (d : DevicePrivate) (_include_port : Bool) :
    Except DeviceError (List Char) :=
  if d.vendor_id.isEmpty || d.product_id.isEmpty then
    Except.error DeviceError.IdentityIncompleteError
  else
    Except.ok (bin2hex (crypto_generichash crypto_generichash_BYTES_MIN
      (d.name ++ d.vendor_id ++ d.product_id ++ d.serial_number)))

/-- Source `DevicePrivate::getDeviceRule`: builds a fresh rule, copies id, target,
vendor id, product id, serial number; attaches the port with `Equals` set
semantics only when `include_port` holds; copies the interface types with
`Equals` set semantics and the name; and stamps the hash computed with
`include_port=false`.  The hash failure propagates (the locally built rule is
discarded). -/
def DevicePrivate.getDeviceRule (d : DevicePrivate) (include_port : Bool) :
    Except DeviceError Rule :=
  match d.getDeviceHash false with
  | Except.error e => Except.error e
  | Except.ok h =>
    let base := Rule.mkDefault
    let base := { base with
      id := d.id
      target := d.target
      vendor_id := d.vendor_id
      product_id := d.product_id
      serial_number := d.serial_number }
    let base :=
      if include_port then
        { base with
          device_ports := base.device_ports ++ [d.port]
          device_ports_set_operator := SetOperator.Equals }
      else base
    Except.ok { base with
      interface_types := d.interface_types
      interface_types_set_operator := SetOperator.Equals
      name := d.name
      device_hash := h }

/-- Modelled from the spec: the external `USBDescriptorParser`'s "have I seen
descriptor type X" oracle state (§6; the parser class is not under `src/`),
one flag per descriptor type. -/
structure USBDescriptorParser where
  hasDevice : Bool
  hasConfiguration : Bool
  hasInterface : Bool
  hasEndpoint : Bool
deriving DecidableEq, Repr

/-- Modelled from the spec: a fresh parser has seen no descriptor. -/
def USBDescriptorParser.fresh : USBDescriptorParser :=
  ⟨false, false, false, false⟩

/-- Modelled from the spec: `haveDescriptor(type)` oracle query (§6). -/
def USBDescriptorParser.haveDescriptor (p : USBDescriptorParser)
    (t : DescriptorType) : Bool :=
  match t with
  | DescriptorType.device => p.hasDevice
  | DescriptorType.configuration => p.hasConfiguration
  | DescriptorType.interface => p.hasInterface
  | DescriptorType.endpoint => p.hasEndpoint

/-- Modelled from the spec: `delDescriptor(type)` forgets the accumulated
descriptor state of the given type (§6). -/
def USBDescriptorParser.delDescriptor (p : USBDescriptorParser)
    (t : DescriptorType) : USBDescriptorParser :=
  match t with
  | DescriptorType.device => { p with hasDevice := false }
  | DescriptorType.configuration => { p with hasConfiguration := false }
  | DescriptorType.interface => { p with hasInterface := false }
  | DescriptorType.endpoint => { p with hasEndpoint := false }

/-- Modelled from the spec: the parser records a descriptor type as seen once
the corresponding event is accepted (the oracle answers `true` for an
ancestor only after its event succeeded; §4.3's ordering scenarios fix this
bookkeeping). -/
def USBDescriptorParser.addDescriptor (p : USBDescriptorParser)
    (t : DescriptorType) : USBDescriptorParser :=
  match t with
  | DescriptorType.device => { p with hasDevice := true }
  | DescriptorType.configuration => { p with hasConfiguration := true }
  | DescriptorType.interface => { p with hasInterface := true }
  | DescriptorType.endpoint => { p with hasEndpoint := true }

/-- Result of one `load*Descriptor` handler call: the record and parser after
the call, the `delDescriptor` invocations the handler issued (in order), and
the error thrown, if any.  C++ exceptions abort the handler at the throw
site, so a handler is translated with its source statement order: whatever
was mutated before the throw would show in `dev`/`parser` here. -/
structure LoadOutcome where
  dev : DevicePrivate
  parser : USBDescriptorParser
  delCalls : List DescriptorType
  err : Option DeviceError
deriving DecidableEq, Repr

/-- Source `DevicePrivate::loadDeviceDescriptor`: throws the duplicate-descriptor
error when the parser already has a device descriptor; otherwise records the
descriptor's configuration count and clears the interface list. -/
def DevicePrivate.loadDeviceDescriptor (d : DevicePrivate)
    (parser : USBDescriptorParser) (descriptor : USBDeviceDescriptor) :
    LoadOutcome :=
  if parser.haveDescriptor DescriptorType.device then
    ⟨d, parser, [], some DeviceError.DuplicateDescriptorError⟩
  else
    ⟨{ d with
        num_configurations := (descriptor.bNumConfigurations : Int)
        interface_types := [] },
      parser, [], none⟩

/-- Source `DevicePrivate::loadConfigurationDescriptor`: throws the missing-parent
error when the parser has no device descriptor; otherwise instructs the
parser to delete its interface and endpoint descriptor state and leaves the
record untouched. -/
def DevicePrivate.loadConfigurationDescriptor (d : DevicePrivate)
    (parser : USBDescriptorParser) : LoadOutcome :=
  if !(parser.haveDescriptor DescriptorType.device) then
    ⟨d, parser, [], some DeviceError.MissingParentError⟩
  else
    ⟨d,
      (parser.delDescriptor DescriptorType.interface).delDescriptor
        DescriptorType.endpoint,
      [DescriptorType.interface, DescriptorType.endpoint], none⟩

/-- Source `DevicePrivate::loadInterfaceDescriptor`: throws the missing-parent error
when the parser has no configuration descriptor; otherwise appends the
interface-type record derived from the descriptor to the interface list. -/
def DevicePrivate.loadInterfaceDescriptor (d : DevicePrivate)
    (parser : USBDescriptorParser) (descriptor : USBInterfaceDescriptor) :
    LoadOutcome :=
  if !(parser.haveDescriptor DescriptorType.configuration) then
    ⟨d, parser, [], some DeviceError.MissingParentError⟩
  else
    ⟨{ d with
        interface_types :=
          d.interface_types ++ [USBInterfaceType.fromDescriptor descriptor] },
      parser, [], none⟩

/-- Source `DevicePrivate::loadEndpointDescriptor`: throws the missing-parent error
when the parser has no interface descriptor; otherwise does nothing. -/
def DevicePrivate.loadEndpointDescriptor (d : DevicePrivate)
    (parser : USBDescriptorParser) : LoadOutcome :=
  if !(parser.haveDescriptor DescriptorType.interface) then
    ⟨d, parser, [], some DeviceError.MissingParentError⟩
  else
    ⟨d, parser, [], none⟩

/-- One ingestion event: a typed descriptor record of one of the four levels
(spec §4.3 / §9: the parser hands this core already-typed records). -/
inductive DescriptorEvent where
  | device (descriptor : USBDeviceDescriptor)
  | configuration
  | interface (descriptor : USBInterfaceDescriptor)
  | endpoint
deriving DecidableEq, Repr

/-- Modelled from the spec: the ingestion driver feeds one event — it calls
the matching `load*Descriptor` handler against the current parser oracle and,
when the handler accepts, the parser records the event's descriptor type;
when the handler throws, nothing is recorded and the error is surfaced. -/
def feedEvent (d : DevicePrivate) (parser : USBDescriptorParser)
    (e : DescriptorEvent) :
    Except DeviceError (DevicePrivate × USBDescriptorParser) :=
  let outcome :=
    match e with
    | DescriptorEvent.device descriptor => d.loadDeviceDescriptor parser descriptor
    | DescriptorEvent.configuration => d.loadConfigurationDescriptor parser
    | DescriptorEvent.interface descriptor => d.loadInterfaceDescriptor parser descriptor
    | DescriptorEvent.endpoint => d.loadEndpointDescriptor parser
  let t :=
    match e with
    | DescriptorEvent.device _ => DescriptorType.device
    | DescriptorEvent.configuration => DescriptorType.configuration
    | DescriptorEvent.interface _ => DescriptorType.interface
    | DescriptorEvent.endpoint => DescriptorType.endpoint
  match outcome.err with
  | some e0 => Except.error e0
  | none => Except.ok (outcome.dev, outcome.parser.addDescriptor t)

/-- Feeding a sequence of ingestion events, stopping at the first error. -/
def feedEvents (d : DevicePrivate) (parser : USBDescriptorParser) :
    List DescriptorEvent →
    Except DeviceError (DevicePrivate × USBDescriptorParser)
  | [] => Except.ok (d, parser)
  | e :: es =>
    match feedEvent d parser e with
    | Except.error e0 => Except.error e0
    | Except.ok (d1, p1) => feedEvents d1 p1 es

/-- Every bounded text field of the record is within its declared bound. -/
def DevicePrivate.boundsOK (d : DevicePrivate) : Prop :=
  d.name.length ≤ USB_GENERIC_STRING_MAX_LENGTH ∧
  d.vendor_id.length ≤ USB_VID_STRING_MAX_LENGTH ∧
  d.product_id.length ≤ USB_PID_STRING_MAX_LENGTH ∧
  d.serial_number.length ≤ USB_GENERIC_STRING_MAX_LENGTH ∧
  d.port.length ≤ USB_PORT_STRING_MAX_LENGTH

/-- A rule whose string attributes are within the record bounds (spec §6
describes the rule's string attributes as bounded strings); the port bound is
required of every entry of the port set, since construction from a rule reads
its first entry. -/
def Rule.stringsWithinBounds (r : Rule) : Prop :=
  r.name.length ≤ USB_GENERIC_STRING_MAX_LENGTH ∧
  r.vendor_id.length ≤ USB_VID_STRING_MAX_LENGTH ∧
  r.product_id.length ≤ USB_PID_STRING_MAX_LENGTH ∧
  r.serial_number.length ≤ USB_GENERIC_STRING_MAX_LENGTH ∧
  ∀ p ∈ r.device_ports, p.length ≤ USB_PORT_STRING_MAX_LENGTH

/-- Record states reachable through the `DevicePrivate` API: default
construction, construction from a bounded-string rule, assignment from a
reachable record, the validated setters (on success), the unchecked
`setID`/`setTarget`, and accepted ingestion events. -/
inductive DevicePrivate.Reachable : DevicePrivate → Prop where
  | mkDefault : DevicePrivate.Reachable DevicePrivate.mkDefault
  | fromRule {r : Rule} {d : DevicePrivate} :
      r.stringsWithinBounds → DevicePrivate.fromRule r = some d →
      DevicePrivate.Reachable d
  | assign {d rhs : DevicePrivate} :
      DevicePrivate.Reachable d → DevicePrivate.Reachable rhs →
      DevicePrivate.Reachable (d.assign rhs)
  | setID {d : DevicePrivate} (id : Nat) :
      DevicePrivate.Reachable d → DevicePrivate.Reachable (d.setID id)
  | setTarget {d : DevicePrivate} (t : Target) :
      DevicePrivate.Reachable d → DevicePrivate.Reachable (d.setTarget t)
  | setDeviceName {d d' : DevicePrivate} {s : ByteString} :
      DevicePrivate.Reachable d → d.setDeviceName s = Except.ok d' →
      DevicePrivate.Reachable d'
  | setVendorID {d d' : DevicePrivate} {s : ByteString} :
      DevicePrivate.Reachable d → d.setVendorID s = Except.ok d' →
      DevicePrivate.Reachable d'
  | setProductID {d d' : DevicePrivate} {s : ByteString} :
      DevicePrivate.Reachable d → d.setProductID s = Except.ok d' →
      DevicePrivate.Reachable d'
  | setDevicePort {d d' : DevicePrivate} {s : ByteString} :
      DevicePrivate.Reachable d → d.setDevicePort s = Except.ok d' →
      DevicePrivate.Reachable d'
  | setSerialNumber {d d' : DevicePrivate} {s : ByteString} :
      DevicePrivate.Reachable d → d.setSerialNumber s = Except.ok d' →
      DevicePrivate.Reachable d'
  | feed {d d' : DevicePrivate} {p p' : USBDescriptorParser}
      {e : DescriptorEvent} :
      DevicePrivate.Reachable d → feedEvent d p e = Except.ok (d', p') →
      DevicePrivate.Reachable d'

/-- The five bounded text fields of the Identity Record, used to state the
setter contract uniformly. -/
inductive TextField where
  | name
  | vendorId
  | productId
  | serialNumber
  | port
deriving DecidableEq, Repr

/-- The declared length bound of each text field. -/
def TextField.bound : TextField → Nat
  | TextField.name => USB_GENERIC_STRING_MAX_LENGTH
  | TextField.vendorId => USB_VID_STRING_MAX_LENGTH
  | TextField.productId => USB_PID_STRING_MAX_LENGTH
  | TextField.serialNumber => USB_GENERIC_STRING_MAX_LENGTH
  | TextField.port => USB_PORT_STRING_MAX_LENGTH

/-- Read one text field of the record. -/
def DevicePrivate.getTextField (d : DevicePrivate) : TextField → ByteString
  | TextField.name => d.name
  | TextField.vendorId => d.vendor_id
  | TextField.productId => d.product_id
  | TextField.serialNumber => d.serial_number
  | TextField.port => d.port

/-- Dispatch to the source setter of one text field. -/
def DevicePrivate.setTextField (d : DevicePrivate) :
    TextField → ByteString → Except DeviceError DevicePrivate
  | TextField.name, s => d.setDeviceName s
  | TextField.vendorId, s => d.setVendorID s
  | TextField.productId, s => d.setProductID s
  | TextField.serialNumber, s => d.setSerialNumber s
  | TextField.port, s => d.setDevicePort s

/-- A concrete record with non-empty vendor and product ids (ASCII bytes of
"12" / "34"), used as evaluation input for the witnesses. -/
def sampleDevice : DevicePrivate :=
  { DevicePrivate.mkDefault with
    name := [110]
    vendor_id := [49, 50]
    product_id := [51, 52]
    serial_number := [115]
    port := [49, 45, 50] }

/-- A concrete rule with one port entry, used as evaluation input. -/
def sampleRule : Rule :=
  { Rule.mkDefault with
    id := 7
    target := Target.Allow
    name := [110]
    vendor_id := [49, 50]
    product_id := [51, 52]
    serial_number := [115]
    device_ports := [[49, 45, 50]]
    device_configurations := 1 }

/-- Variant of `sampleDevice` with a different port, id, target and interface list but
the same four identity fields. -/
def sampleDevice2 : DevicePrivate :=
  { sampleDevice with
    id := 3
    target := Target.Block
    port := [53]
    interface_types := [⟨8, 6, 80⟩] }

/-- The hash string `getDeviceHash` produces on `sampleDevice`. -/
def sampleHash : List Char :=
  bin2hex (crypto_generichash crypto_generichash_BYTES_MIN
    (sampleDevice.name ++ sampleDevice.vendor_id ++ sampleDevice.product_id ++
      sampleDevice.serial_number))

section HashLemmas

/-- The modelled digest has exactly the requested length. -/
theorem crypto_generichash_length (outlen : Nat) (input : List Nat) :
    (crypto_generichash outlen input).length = outlen := by
  simp [crypto_generichash]

/-- Hex encoding yields two characters per byte. -/
theorem bin2hex_length (bytes : List Nat) :
    (bin2hex bytes).length = 2 * bytes.length := by
  induction bytes with
  | nil => rfl
  | cons b bs ih =>
    simp [bin2hex] at ih ⊢
    omega

/-- Every hex digit of a nibble is a lowercase hexadecimal character. -/
theorem hexDigit_lowercase :
    ∀ n, n < 16 →
      (48 ≤ (hexDigit n).toNat ∧ (hexDigit n).toNat ≤ 57) ∨
      (97 ≤ (hexDigit n).toNat ∧ (hexDigit n).toNat ≤ 102) := by
  decide

/-- Every character of a hex encoding is the digit of some nibble. -/
theorem bin2hex_mem (bytes : List Nat) (c : Char) (hc : c ∈ bin2hex bytes) :
    ∃ m, m < 16 ∧ c = hexDigit m := by
  induction bytes with
  | nil => simp [bin2hex] at hc
  | cons b bs ih =>
    simp only [bin2hex, List.flatMap_cons, List.mem_append] at hc
    rcases hc with hc | hc
    · simp only [List.mem_cons, List.mem_singleton] at hc
      rcases hc with hc | hc | hc
      · exact ⟨b / 16 % 16, Nat.mod_lt _ (by omega), hc⟩
      · exact ⟨b % 16, Nat.mod_lt _ (by omega), hc⟩
      · cases hc
    · exact ih hc

/-- A successful `getDeviceHash` call returns exactly the hex encoding of the
digest of the four streamed fields. -/
theorem getDeviceHash_ok (d : DevicePrivate) (ip : Bool) (h : List Char)
    (hh : d.getDeviceHash ip = Except.ok h) :
    h = bin2hex (crypto_generichash crypto_generichash_BYTES_MIN
      (d.name ++ d.vendor_id ++ d.product_id ++ d.serial_number)) := by
  unfold DevicePrivate.getDeviceHash at hh
  split at hh
  · cases hh
  · cases hh
    rfl

/-- Non-empty vendor and product ids make `getDeviceHash` succeed. -/
theorem getDeviceHash_of_nonempty (d : DevicePrivate) (ip : Bool)
    (hv : d.vendor_id ≠ []) (hp : d.product_id ≠ []) :
    d.getDeviceHash ip = Except.ok (bin2hex (crypto_generichash
      crypto_generichash_BYTES_MIN
      (d.name ++ d.vendor_id ++ d.product_id ++ d.serial_number))) := by
  have hc : (d.vendor_id.isEmpty || d.product_id.isEmpty) = false := by
    simp [List.isEmpty_iff, hv, hp]
  simp [DevicePrivate.getDeviceHash, hc]

end HashLemmas

/-- C10: the `include_port` parameter of `getDeviceHash` is never consulted —
for every record state the two calls return the same result. -/
theorem C10_hash_ignores_include_port (d : DevicePrivate) (ip1 ip2 : Bool) :
    d.getDeviceHash ip1 = d.getDeviceHash ip2 := rfl

/-- C4: the identity hash is a pure function of (name, vendorId, productId,
serialNumber): two record states agreeing on these four fields, with vendor
and product ids non-empty, hash to the same output (so changing only port,
id, target or interfaceTypes cannot change it, and repeated calls agree). -/
theorem C4_hash_pure (d1 d2 : DevicePrivate) (ip1 ip2 : Bool)
    (hn : d1.name = d2.name) (hv : d1.vendor_id = d2.vendor_id)
    (hp : d1.product_id = d2.product_id)
    (hs : d1.serial_number = d2.serial_number)
    (hv0 : d1.vendor_id ≠ []) (hp0 : d1.product_id ≠ []) :
    d1.getDeviceHash ip1 = d2.getDeviceHash ip2 ∧
    ∃ h, d1.getDeviceHash ip1 = Except.ok h := by
  have e1 := getDeviceHash_of_nonempty d1 ip1 hv0 hp0
  have e2 := getDeviceHash_of_nonempty d2 ip2 (hv ▸ hv0) (hp ▸ hp0)
  refine ⟨?_, _, e1⟩
  rw [e1, e2, hn, hv, hp, hs]

/-- C4 witness: two concrete records differing only in port, id, target and
interface list hash identically. -/
theorem C4_hash_pure_witness :
    sampleDevice.getDeviceHash true = sampleDevice2.getDeviceHash false ∧
    ∃ h, sampleDevice.getDeviceHash true = Except.ok h :=
  C4_hash_pure sampleDevice sampleDevice2 true false rfl rfl rfl rfl
    (by decide) (by decide)

/-- C5: `getDeviceHash` fails with `IdentityIncompleteError` iff the vendor
id or the product id is empty, succeeds otherwise, and `getDeviceRule` fails
the same way when the vendor id is empty. -/
theorem C5_identity_incomplete (d : DevicePrivate) (ip : Bool) :
    (d.getDeviceHash ip = Except.error DeviceError.IdentityIncompleteError ↔
      d.vendor_id = [] ∨ d.product_id = []) ∧
    (d.vendor_id ≠ [] → d.product_id ≠ [] →
      ∃ h, d.getDeviceHash ip = Except.ok h) ∧
    (d.vendor_id = [] →
      d.getDeviceRule ip = Except.error DeviceError.IdentityIncompleteError) := by
  refine ⟨⟨?_, ?_⟩, ?_, ?_⟩
  · intro hh
    by_cases hv : d.vendor_id = []
    · exact Or.inl hv
    by_cases hp : d.product_id = []
    · exact Or.inr hp
    rw [getDeviceHash_of_nonempty d ip hv hp] at hh
    cases hh
  · intro hvp
    have hc : (d.vendor_id.isEmpty || d.product_id.isEmpty) = true := by
      rcases hvp with hv | hp
      · simp [List.isEmpty_iff, hv]
      · simp [List.isEmpty_iff, hp]
    simp [DevicePrivate.getDeviceHash, hc]
  · intro hv hp
    exact ⟨_, getDeviceHash_of_nonempty d ip hv hp⟩
  · intro hv
    have hh : d.getDeviceHash false =
        Except.error DeviceError.IdentityIncompleteError := by
      simp [DevicePrivate.getDeviceHash, List.isEmpty_iff, hv]
    simp [DevicePrivate.getDeviceRule, hh]

/-- C5 witness: the empty default record fails hashing and rule generation
with `IdentityIncompleteError`; the concrete populated record hashes. -/
theorem C5_identity_incomplete_witness :
    DevicePrivate.mkDefault.getDeviceHash false =
      Except.error DeviceError.IdentityIncompleteError ∧
    (∃ h, sampleDevice.getDeviceHash false = Except.ok h) ∧
    DevicePrivate.mkDefault.getDeviceRule true =
      Except.error DeviceError.IdentityIncompleteError :=
  ⟨(C5_identity_incomplete DevicePrivate.mkDefault false).1.mpr (Or.inl rfl),
   (C5_identity_incomplete sampleDevice false).2.1 (by decide) (by decide),
   (C5_identity_incomplete DevicePrivate.mkDefault true).2.2 rfl⟩

/-- C7 counterexample: on a concrete record the hash call succeeds with a hex
string of length 32, not of length at least 64 as claimed (libsodium's
`crypto_generichash_BYTES_MIN` digest is 16 bytes, not at least 32). -/
theorem C7_counterexample :
    (sampleDevice.getDeviceHash false).map List.length = Except.ok 32 ∧
    ¬ 64 ≤ 32 := by
  constructor
  · rfl
  · decide

/-- C7 (amended): every successful hash call returns the lowercase hex
encoding of the `crypto_generichash_BYTES_MIN` = 16-byte digest of the four
fields streamed in order (name, vendorId, productId, serialNumber) with no
delimiter; the hex string has the one fixed length 32. -/
theorem C7_hash_format (d : DevicePrivate) (ip : Bool) (h : List Char)
    (hh : d.getDeviceHash ip = Except.ok h) :
    h = bin2hex (crypto_generichash crypto_generichash_BYTES_MIN
      (d.name ++ d.vendor_id ++ d.product_id ++ d.serial_number)) ∧
    h.length = 2 * crypto_generichash_BYTES_MIN ∧
    h.length = 32 ∧
    ∀ c ∈ h,
      (48 ≤ c.toNat ∧ c.toNat ≤ 57) ∨ (97 ≤ c.toNat ∧ c.toNat ≤ 102) := by
  have he := getDeviceHash_ok d ip h hh
  subst he
  refine ⟨rfl, ?_, ?_, ?_⟩
  · rw [bin2hex_length, crypto_generichash_length]
  · rw [bin2hex_length, crypto_generichash_length]
    rfl
  · intro c hc
    obtain ⟨m, hm, hcm⟩ := bin2hex_mem _ c hc
    exact hcm ▸ hexDigit_lowercase m hm

/-- C7 witness: the format facts evaluated on the concrete record's hash. -/
theorem C7_hash_format_witness :
    sampleHash = bin2hex (crypto_generichash crypto_generichash_BYTES_MIN
      (sampleDevice.name ++ sampleDevice.vendor_id ++ sampleDevice.product_id ++
        sampleDevice.serial_number)) ∧
    sampleHash.length = 2 * crypto_generichash_BYTES_MIN ∧
    sampleHash.length = 32 ∧
    ∀ c ∈ sampleHash,
      (48 ≤ c.toNat ∧ c.toNat ≤ 57) ∨ (97 ≤ c.toNat ∧ c.toNat ≤ 102) :=
  C7_hash_format sampleDevice false sampleHash rfl

/-- C1: each load operation fails exactly when its parser-oracle
precondition is violated, with the stated error kind, and succeeds
otherwise: a device descriptor fails with `DuplicateDescriptorError` iff a
device descriptor is already present; configuration/interface/endpoint
descriptors fail with `MissingParentError` iff the device/configuration/
interface descriptor (respectively) is absent. -/
theorem C1_load_error_iff (d : DevicePrivate) (p : USBDescriptorParser)
    (dd : USBDeviceDescriptor) (idd : USBInterfaceDescriptor) :
    (d.loadDeviceDescriptor p dd).err =
      (if p.haveDescriptor DescriptorType.device
        then some DeviceError.DuplicateDescriptorError else none) ∧
    (d.loadConfigurationDescriptor p).err =
      (if p.haveDescriptor DescriptorType.device
        then none else some DeviceError.MissingParentError) ∧
    (d.loadInterfaceDescriptor p idd).err =
      (if p.haveDescriptor DescriptorType.configuration
        then none else some DeviceError.MissingParentError) ∧
    (d.loadEndpointDescriptor p).err =
      (if p.haveDescriptor DescriptorType.interface
        then none else some DeviceError.MissingParentError) := by
  refine ⟨?_, ?_, ?_, ?_⟩
  · cases hb : p.haveDescriptor DescriptorType.device <;>
      simp [DevicePrivate.loadDeviceDescriptor, hb]
  · cases hb : p.haveDescriptor DescriptorType.device <;>
      simp [DevicePrivate.loadConfigurationDescriptor, hb]
  · cases hb : p.haveDescriptor DescriptorType.configuration <;>
      simp [DevicePrivate.loadInterfaceDescriptor, hb]
  · cases hb : p.haveDescriptor DescriptorType.interface <;>
      simp [DevicePrivate.loadEndpointDescriptor, hb]

/-- C2: each accepted load operation has exactly its specified effect — a
device descriptor records the configuration count and clears the interface
list; a configuration descriptor issues `delDescriptor` for the interface
and endpoint types and mutates no record field; an interface descriptor
appends exactly the derived interface-type record; an endpoint descriptor
mutates nothing.  Feeding device → configuration → interface → endpoint on a
fresh session succeeds leaving exactly one interface entry, and a subsequent
accepted device event clears the list again. -/
theorem C2_load_effects (d : DevicePrivate) (p : USBDescriptorParser)
    (dd dd2 : USBDeviceDescriptor) (idd : USBInterfaceDescriptor) :
    (p.haveDescriptor DescriptorType.device = false →
      d.loadDeviceDescriptor p dd =
        ⟨{ d with
            num_configurations := (dd.bNumConfigurations : Int)
            interface_types := [] }, p, [], none⟩) ∧
    (p.haveDescriptor DescriptorType.device = true →
      d.loadConfigurationDescriptor p =
        ⟨d, (p.delDescriptor DescriptorType.interface).delDescriptor
            DescriptorType.endpoint,
          [DescriptorType.interface, DescriptorType.endpoint], none⟩) ∧
    (p.haveDescriptor DescriptorType.configuration = true →
      d.loadInterfaceDescriptor p idd =
        ⟨{ d with interface_types :=
            d.interface_types ++ [USBInterfaceType.fromDescriptor idd] },
          p, [], none⟩) ∧
    (p.haveDescriptor DescriptorType.interface = true →
      d.loadEndpointDescriptor p = ⟨d, p, [], none⟩) ∧
    (∃ d1 p1,
      feedEvents d USBDescriptorParser.fresh
          [DescriptorEvent.device dd, DescriptorEvent.configuration,
            DescriptorEvent.interface idd, DescriptorEvent.endpoint] =
        Except.ok (d1, p1) ∧
      d1.interface_types = [USBInterfaceType.fromDescriptor idd] ∧
      (∀ p2 : USBDescriptorParser,
        p2.haveDescriptor DescriptorType.device = false →
        ∃ d2 p3,
          feedEvent d1 p2 (DescriptorEvent.device dd2) = Except.ok (d2, p3) ∧
          d2.interface_types = [])) := by
  refine ⟨?_, ?_, ?_, ?_, ?_⟩
  · intro hb; simp [DevicePrivate.loadDeviceDescriptor, hb]
  · intro hb; simp [DevicePrivate.loadConfigurationDescriptor, hb]
  · intro hb; simp [DevicePrivate.loadInterfaceDescriptor, hb]
  · intro hb; simp [DevicePrivate.loadEndpointDescriptor, hb]
  · refine ⟨{ d with
        num_configurations := (dd.bNumConfigurations : Int)
        interface_types := [USBInterfaceType.fromDescriptor idd] },
      ⟨true, true, true, true⟩, rfl, rfl, ?_⟩
    intro p2 hp2
    refine ⟨{ d with
        num_configurations := (dd2.bNumConfigurations : Int)
        interface_types := [] },
      p2.addDescriptor DescriptorType.device, ?_, rfl⟩
    simp [feedEvent, DevicePrivate.loadDeviceDescriptor, hp2]

/-- C2 witness: the accepted-effect equations evaluated on concrete inputs. -/
theorem C2_load_effects_witness :
    sampleDevice.loadDeviceDescriptor USBDescriptorParser.fresh ⟨2⟩ =
      ⟨{ sampleDevice with num_configurations := 2, interface_types := [] },
        USBDescriptorParser.fresh, [], none⟩ ∧
    sampleDevice.loadConfigurationDescriptor ⟨true, false, true, true⟩ =
      ⟨sampleDevice, ⟨true, false, false, false⟩,
        [DescriptorType.interface, DescriptorType.endpoint], none⟩ ∧
    sampleDevice.loadInterfaceDescriptor ⟨true, true, false, false⟩ ⟨8, 6, 80⟩ =
      ⟨{ sampleDevice with interface_types := [⟨8, 6, 80⟩] },
        ⟨true, true, false, false⟩, [], none⟩ :=
  ⟨(C2_load_effects sampleDevice USBDescriptorParser.fresh ⟨2⟩ ⟨2⟩ ⟨8, 6, 80⟩).1 rfl,
   (C2_load_effects sampleDevice ⟨true, false, true, true⟩ ⟨2⟩ ⟨2⟩ ⟨8, 6, 80⟩).2.1 rfl,
   (C2_load_effects sampleDevice ⟨true, true, false, false⟩ ⟨2⟩ ⟨2⟩ ⟨8, 6, 80⟩).2.2.1 rfl⟩

/-- C8: every load operation is atomic on failure — when the precondition
check fails, the returned outcome carries the input record and parser
unchanged and an empty `delDescriptor` call list (the throw happens before
any mutation). -/
theorem C8_load_failure_atomic (d : DevicePrivate) (p : USBDescriptorParser)
    (dd : USBDeviceDescriptor) (idd : USBInterfaceDescriptor) :
    ((d.loadDeviceDescriptor p dd).err ≠ none →
      d.loadDeviceDescriptor p dd =
        ⟨d, p, [], some DeviceError.DuplicateDescriptorError⟩) ∧
    ((d.loadConfigurationDescriptor p).err ≠ none →
      d.loadConfigurationDescriptor p =
        ⟨d, p, [], some DeviceError.MissingParentError⟩) ∧
    ((d.loadInterfaceDescriptor p idd).err ≠ none →
      d.loadInterfaceDescriptor p idd =
        ⟨d, p, [], some DeviceError.MissingParentError⟩) ∧
    ((d.loadEndpointDescriptor p).err ≠ none →
      d.loadEndpointDescriptor p =
        ⟨d, p, [], some DeviceError.MissingParentError⟩) := by
  refine ⟨?_, ?_, ?_, ?_⟩
  · cases hb : p.haveDescriptor DescriptorType.device <;>
      simp [DevicePrivate.loadDeviceDescriptor, hb]
  · cases hb : p.haveDescriptor DescriptorType.device <;>
      simp [DevicePrivate.loadConfigurationDescriptor, hb]
  · cases hb : p.haveDescriptor DescriptorType.configuration <;>
      simp [DevicePrivate.loadInterfaceDescriptor, hb]
  · cases hb : p.haveDescriptor DescriptorType.interface <;>
      simp [DevicePrivate.loadEndpointDescriptor, hb]

/-- C8 witness: the failure outcomes evaluated on concrete inputs. -/
theorem C8_load_failure_atomic_witness :
    sampleDevice.loadDeviceDescriptor ⟨true, false, false, false⟩ ⟨2⟩ =
      ⟨sampleDevice, ⟨true, false, false, false⟩, [],
        some DeviceError.DuplicateDescriptorError⟩ ∧
    sampleDevice.loadConfigurationDescriptor USBDescriptorParser.fresh =
      ⟨sampleDevice, USBDescriptorParser.fresh, [],
        some DeviceError.MissingParentError⟩ ∧
    sampleDevice.loadInterfaceDescriptor ⟨true, false, false, false⟩ ⟨8, 6, 80⟩ =
      ⟨sampleDevice, ⟨true, false, false, false⟩, [],
        some DeviceError.MissingParentError⟩ ∧
    sampleDevice.loadEndpointDescriptor ⟨true, false, false, false⟩ =
      ⟨sampleDevice, ⟨true, false, false, false⟩, [],
        some DeviceError.MissingParentError⟩ :=
  ⟨(C8_load_failure_atomic sampleDevice ⟨true, false, false, false⟩ ⟨2⟩
      ⟨8, 6, 80⟩).1 (by decide),
   (C8_load_failure_atomic sampleDevice USBDescriptorParser.fresh ⟨2⟩
      ⟨8, 6, 80⟩).2.1 (by decide),
   (C8_load_failure_atomic sampleDevice ⟨true, false, false, false⟩ ⟨2⟩
      ⟨8, 6, 80⟩).2.2.1 (by decide),
   (C8_load_failure_atomic sampleDevice ⟨true, false, false, false⟩ ⟨2⟩
      ⟨8, 6, 80⟩).2.2.2 (by decide)⟩

/-- C3: rule materialization copies id, target, vendor id, product id,
serial number, name and the interface types (stamped with exact-match set
semantics), sets the rule's hash to the hasher's output computed with port
excluded regardless of `include_port`, and attaches exactly the current port
with exact-match set semantics iff `include_port` is true (empty port set
otherwise). -/
theorem C3_rule_materialization (d : DevicePrivate) (include_port : Bool)
    (h : List Char) (hh : d.getDeviceHash false = Except.ok h) :
    ∃ r, d.getDeviceRule include_port = Except.ok r ∧
      r.id = d.id ∧ r.target = d.target ∧ r.vendor_id = d.vendor_id ∧
      r.product_id = d.product_id ∧ r.serial_number = d.serial_number ∧
      r.name = d.name ∧ r.interface_types = d.interface_types ∧
      r.interface_types_set_operator = SetOperator.Equals ∧
      r.device_hash = h ∧
      (include_port = true →
        r.device_ports = [d.port] ∧
        r.device_ports_set_operator = SetOperator.Equals) ∧
      (include_port = false → r.device_ports = []) := by
  cases include_port with
  | false =>
    have key : d.getDeviceRule false = Except.ok
        { id := d.id
          target := d.target
          name := d.name
          vendor_id := d.vendor_id
          product_id := d.product_id
          serial_number := d.serial_number
          device_ports := []
          device_ports_set_operator := SetOperator.Match
          interface_types := d.interface_types
          interface_types_set_operator := SetOperator.Equals
          device_hash := h
          device_configurations := -1 } := by
      unfold DevicePrivate.getDeviceRule
      rw [hh]
      rfl
    refine ⟨_, key, rfl, rfl, rfl, rfl, rfl, rfl, rfl, rfl, rfl, ?_, ?_⟩
    · intro hc
      simp at hc
    · intro _
      rfl
  | true =>
    have key : d.getDeviceRule true = Except.ok
        { id := d.id
          target := d.target
          name := d.name
          vendor_id := d.vendor_id
          product_id := d.product_id
          serial_number := d.serial_number
          device_ports := [d.port]
          device_ports_set_operator := SetOperator.Equals
          interface_types := d.interface_types
          interface_types_set_operator := SetOperator.Equals
          device_hash := h
          device_configurations := -1 } := by
      unfold DevicePrivate.getDeviceRule
      rw [hh]
      rfl
    refine ⟨_, key, rfl, rfl, rfl, rfl, rfl, rfl, rfl, rfl, rfl, ?_, ?_⟩
    · intro _
      exact ⟨rfl, rfl⟩
    · intro hc
      simp at hc

/-- C3 witness: materialization evaluated on the concrete record with the
port included. -/
theorem C3_rule_materialization_witness :
    ∃ r, sampleDevice.getDeviceRule true = Except.ok r ∧
      r.id = sampleDevice.id ∧ r.target = sampleDevice.target ∧
      r.vendor_id = sampleDevice.vendor_id ∧
      r.product_id = sampleDevice.product_id ∧
      r.serial_number = sampleDevice.serial_number ∧
      r.name = sampleDevice.name ∧
      r.interface_types = sampleDevice.interface_types ∧
      r.interface_types_set_operator = SetOperator.Equals ∧
      r.device_hash = sampleHash ∧
      (true = true →
        r.device_ports = [sampleDevice.port] ∧
        r.device_ports_set_operator = SetOperator.Equals) ∧
      (true = false → r.device_ports = []) :=
  C3_rule_materialization sampleDevice true sampleHash rfl

/-- C9: construction from a rule reads the first element of the rule's port
list through a guarded index — it yields `none` exactly when the port set is
empty, and with a non-empty port set it is total and populates every field
from the rule, taking the first port entry. -/
theorem C9_fromRule_ports (r : Rule) :
    (r.device_ports = [] → DevicePrivate.fromRule r = none) ∧
    (∀ p0 rest, r.device_ports = p0 :: rest →
      DevicePrivate.fromRule r = some
        { id := r.id
          target := r.target
          name := r.name
          vendor_id := r.vendor_id
          product_id := r.product_id
          serial_number := r.serial_number
          port := p0
          interface_types := r.interface_types
          num_configurations := r.device_configurations }) := by
  constructor
  · intro hp
    simp [DevicePrivate.fromRule, hp]
  · intro p0 rest hp
    simp [DevicePrivate.fromRule, hp]

/-- C9 witness: construction evaluated on a concrete one-port rule and on
the portless default rule. -/
theorem C9_fromRule_ports_witness :
    DevicePrivate.fromRule sampleRule = some
      { id := sampleRule.id
        target := sampleRule.target
        name := sampleRule.name
        vendor_id := sampleRule.vendor_id
        product_id := sampleRule.product_id
        serial_number := sampleRule.serial_number
        port := [49, 45, 50]
        interface_types := sampleRule.interface_types
        num_configurations := sampleRule.device_configurations } ∧
    DevicePrivate.fromRule Rule.mkDefault = none :=
  ⟨(C9_fromRule_ports sampleRule).2 [49, 45, 50] [] rfl,
   (C9_fromRule_ports Rule.mkDefault).1 rfl⟩

section BoundsInvariant

/-- An accepted ingestion event never touches the text fields. -/
theorem feedEvent_ok_textFields {d d' : DevicePrivate}
    {p p' : USBDescriptorParser} {e : DescriptorEvent}
    (hf : feedEvent d p e = Except.ok (d', p')) :
    d'.name = d.name ∧ d'.vendor_id = d.vendor_id ∧
    d'.product_id = d.product_id ∧ d'.serial_number = d.serial_number ∧
    d'.port = d.port := by
  cases e with
  | device dd =>
    by_cases hb : p.haveDescriptor DescriptorType.device
    · simp [feedEvent, DevicePrivate.loadDeviceDescriptor, hb] at hf
    · simp [feedEvent, DevicePrivate.loadDeviceDescriptor, hb] at hf
      obtain ⟨h1, h2⟩ := hf
      subst h1
      exact ⟨rfl, rfl, rfl, rfl, rfl⟩
  | configuration =>
    by_cases hb : p.haveDescriptor DescriptorType.device
    · simp [feedEvent, DevicePrivate.loadConfigurationDescriptor, hb] at hf
      obtain ⟨h1, h2⟩ := hf
      subst h1
      exact ⟨rfl, rfl, rfl, rfl, rfl⟩
    · simp [feedEvent, DevicePrivate.loadConfigurationDescriptor, hb] at hf
  | interface idd =>
    by_cases hb : p.haveDescriptor DescriptorType.configuration
    · simp [feedEvent, DevicePrivate.loadInterfaceDescriptor, hb] at hf
      obtain ⟨h1, h2⟩ := hf
      subst h1
      exact ⟨rfl, rfl, rfl, rfl, rfl⟩
    · simp [feedEvent, DevicePrivate.loadInterfaceDescriptor, hb] at hf
  | endpoint =>
    by_cases hb : p.haveDescriptor DescriptorType.interface
    · simp [feedEvent, DevicePrivate.loadEndpointDescriptor, hb] at hf
      obtain ⟨h1, h2⟩ := hf
      subst h1
      exact ⟨rfl, rfl, rfl, rfl, rfl⟩
    · simp [feedEvent, DevicePrivate.loadEndpointDescriptor, hb] at hf

/-- Every reachable record state keeps all five text fields within their
declared bounds. -/
theorem reachable_boundsOK (d : DevicePrivate)
    (hr : DevicePrivate.Reachable d) : d.boundsOK := by
  induction hr with
  | mkDefault =>
    exact ⟨Nat.zero_le _, Nat.zero_le _, Nat.zero_le _, Nat.zero_le _,
      Nat.zero_le _⟩
  | fromRule hwf heq =>
    rename_i r d0
    cases hps : r.device_ports with
    | nil =>
      rw [DevicePrivate.fromRule, hps] at heq
      cases heq
    | cons a l =>
      rw [DevicePrivate.fromRule, hps] at heq
      simp only [List.head?_cons] at heq
      injection heq with heq
      subst heq
      refine ⟨hwf.1, hwf.2.1, hwf.2.2.1, hwf.2.2.2.1, ?_⟩
      exact hwf.2.2.2.2 a (hps ▸ List.mem_cons_self a l)
  | assign hd hrhs ihd ihrhs =>
    exact ihrhs
  | setID id hd ih =>
    exact ih
  | setTarget t hd ih =>
    exact ih
  | setDeviceName hd h ih =>
    unfold DevicePrivate.setDeviceName at h
    split at h
    · cases h
    · rename_i hgt
      injection h with h
      subst h
      exact ⟨Nat.le_of_not_lt hgt, ih.2.1, ih.2.2.1, ih.2.2.2.1, ih.2.2.2.2⟩
  | setVendorID hd h ih =>
    unfold DevicePrivate.setVendorID at h
    split at h
    · cases h
    · rename_i hgt
      injection h with h
      subst h
      exact ⟨ih.1, Nat.le_of_not_lt hgt, ih.2.2.1, ih.2.2.2.1, ih.2.2.2.2⟩
  | setProductID hd h ih =>
    unfold DevicePrivate.setProductID at h
    split at h
    · cases h
    · rename_i hgt
      injection h with h
      subst h
      exact ⟨ih.1, ih.2.1, Nat.le_of_not_lt hgt, ih.2.2.2.1, ih.2.2.2.2⟩
  | setDevicePort hd h ih =>
    unfold DevicePrivate.setDevicePort at h
    split at h
    · cases h
    · rename_i hgt
      injection h with h
      subst h
      exact ⟨ih.1, ih.2.1, ih.2.2.1, ih.2.2.2.1, Nat.le_of_not_lt hgt⟩
  | setSerialNumber hd h ih =>
    unfold DevicePrivate.setSerialNumber at h
    split at h
    · cases h
    · rename_i hgt
      injection h with h
      subst h
      exact ⟨ih.1, ih.2.1, ih.2.2.1, Nat.le_of_not_lt hgt, ih.2.2.2.2⟩
  | feed hd hfe ih =>
    obtain ⟨h1, h2, h3, h4, h5⟩ := feedEvent_ok_textFields hfe
    exact ⟨h1 ▸ ih.1, h2 ▸ ih.2.1, h3 ▸ ih.2.2.1, h4 ▸ ih.2.2.2.1,
      h5 ▸ ih.2.2.2.2⟩

end BoundsInvariant

/-- C6: for every bounded text field, the setter rejects any over-long value
with `ValidationError` (returning no mutated record, so the prior value
stands), stores any value within the bound leaving the other fields
untouched, and consequently every reachable record state keeps every text
field within its declared bound. -/
theorem C6_setter_bounds (f : TextField) (d : DevicePrivate) (s : ByteString) :
    (s.length > TextField.bound f →
      d.setTextField f s = Except.error DeviceError.ValidationError) ∧
    (s.length ≤ TextField.bound f →
      ∃ d', d.setTextField f s = Except.ok d' ∧
        d'.getTextField f = s ∧
        ∀ g, g ≠ f → d'.getTextField g = d.getTextField g) ∧
    (∀ d0 : DevicePrivate, DevicePrivate.Reachable d0 →
      ∀ g, (d0.getTextField g).length ≤ TextField.bound g) := by
  refine ⟨?_, ?_, ?_⟩
  · intro hgt
    cases f with
    | name =>
      simp only [TextField.bound] at hgt
      simp [DevicePrivate.setTextField, DevicePrivate.setDeviceName, hgt]
    | vendorId =>
      simp only [TextField.bound] at hgt
      simp [DevicePrivate.setTextField, DevicePrivate.setVendorID, hgt]
    | productId =>
      simp only [TextField.bound] at hgt
      simp [DevicePrivate.setTextField, DevicePrivate.setProductID, hgt]
    | serialNumber =>
      simp only [TextField.bound] at hgt
      simp [DevicePrivate.setTextField, DevicePrivate.setSerialNumber, hgt]
    | port =>
      simp only [TextField.bound] at hgt
      simp [DevicePrivate.setTextField, DevicePrivate.setDevicePort, hgt]
  · intro hle
    cases f with
    | name =>
      simp only [TextField.bound] at hle
      refine ⟨{ d with name := s }, ?_, rfl, ?_⟩
      · simp [DevicePrivate.setTextField, DevicePrivate.setDeviceName,
          Nat.not_lt.mpr hle]
      · intro g hg
        cases g with
        | name => exact absurd rfl hg
        | vendorId => rfl
        | productId => rfl
        | serialNumber => rfl
        | port => rfl
    | vendorId =>
      simp only [TextField.bound] at hle
      refine ⟨{ d with vendor_id := s }, ?_, rfl, ?_⟩
      · simp [DevicePrivate.setTextField, DevicePrivate.setVendorID,
          Nat.not_lt.mpr hle]
      · intro g hg
        cases g with
        | name => rfl
        | vendorId => exact absurd rfl hg
        | productId => rfl
        | serialNumber => rfl
        | port => rfl
    | productId =>
      simp only [TextField.bound] at hle
      refine ⟨{ d with product_id := s }, ?_, rfl, ?_⟩
      · simp [DevicePrivate.setTextField, DevicePrivate.setProductID,
          Nat.not_lt.mpr hle]
      · intro g hg
        cases g with
        | name => rfl
        | vendorId => rfl
        | productId => exact absurd rfl hg
        | serialNumber => rfl
        | port => rfl
    | serialNumber =>
      simp only [TextField.bound] at hle
      refine ⟨{ d with serial_number := s }, ?_, rfl, ?_⟩
      · simp [DevicePrivate.setTextField, DevicePrivate.setSerialNumber,
          Nat.not_lt.mpr hle]
      · intro g hg
        cases g with
        | name => rfl
        | vendorId => rfl
        | productId => rfl
        | serialNumber => exact absurd rfl hg
        | port => rfl
    | port =>
      simp only [TextField.bound] at hle
      refine ⟨{ d with port := s }, ?_, rfl, ?_⟩
      · simp [DevicePrivate.setTextField, DevicePrivate.setDevicePort,
          Nat.not_lt.mpr hle]
      · intro g hg
        cases g with
        | name => rfl
        | vendorId => rfl
        | productId => rfl
        | serialNumber => rfl
        | port => exact absurd rfl hg
  · intro d0 hr g
    have hb := reachable_boundsOK d0 hr
    cases g with
    | name => exact hb.1
    | vendorId => exact hb.2.1
    | productId => exact hb.2.2.1
    | serialNumber => exact hb.2.2.2.1
    | port => exact hb.2.2.2.2

/-- C6 witness: a five-byte vendor id is rejected, a two-byte vendor id is
stored, and the default record's port field is within bound. -/
theorem C6_setter_bounds_witness :
    DevicePrivate.mkDefault.setTextField TextField.vendorId
        [49, 50, 51, 52, 53] =
      Except.error DeviceError.ValidationError ∧
    (∃ d', DevicePrivate.mkDefault.setTextField TextField.vendorId [49, 50] =
        Except.ok d' ∧
      d'.getTextField TextField.vendorId = [49, 50] ∧
      ∀ g, g ≠ TextField.vendorId →
        d'.getTextField g = DevicePrivate.mkDefault.getTextField g) ∧
    (DevicePrivate.mkDefault.getTextField TextField.port).length ≤
      TextField.bound TextField.port :=
  ⟨(C6_setter_bounds TextField.vendorId DevicePrivate.mkDefault
      [49, 50, 51, 52, 53]).1 (by decide),
   (C6_setter_bounds TextField.vendorId DevicePrivate.mkDefault
      [49, 50]).2.1 (by decide),
   (C6_setter_bounds TextField.port DevicePrivate.mkDefault []).2.2
      DevicePrivate.mkDefault DevicePrivate.Reachable.mkDefault
      TextField.port⟩

end Usbguard
